import Mathlib

/-
Shallow embedding of the GotMail notification fan-out and auto-reply
pipeline (gotmail_service/serializers.py: notify_recipients,
handle_auto_reply, plain_text_to_quill_delta, CreateEmailSerializer.create;
gotmail_service/consumers.py: EmailConsumer.connect / disconnect).

Django model instances become Lean structures; the database (emails,
notifications) and the channel layer (push events) become an explicit
MailState threaded through the operations.  User objects compare and hash
by primary key in Django, so deduplication is by the numeric id.
Fallible collaborator calls (Notification.objects.create, group_send,
Email.objects.create inside the auto-reply engine) are modelled by a
failure oracle: the try/except blocks of the source absorb an injected
failure exactly where the Python exception would be caught, keeping any
partial writes, since no transaction wraps them.
-/

namespace GotMail

/-- A Django User as seen by the pipeline: primary key and display name. -/
structure PyUser where
  id : Nat
  first_name : String := ""
  last_name : String := ""
deriving DecidableEq

/-- gotmail_service/models.py Email, restricted to fields the pipeline reads
or writes.  Recipient/cc/bcc many-to-many sets are lists of users; reply_to
is a weak reference by email id. -/
structure Email where
  id : Nat
  sender : PyUser
  recipients : List PyUser := []
  cc : List PyUser := []
  bcc : List PyUser := []
  subject : String := ""
  body : String := ""
  sent_at : Nat := 0
  is_read : Bool := false
  is_starred : Bool := false
  is_draft : Bool := false
  is_trashed : Bool := false
  is_auto_replied : Bool := false
  reply_to : Option Nat := none
deriving DecidableEq

/-- gotmail_service/models.py Notification: owner (by user id), message,
type tag, weak reference to the triggering email. -/
structure Notification where
  id : Nat
  user : Nat
  message : String
  is_read : Bool := false
  created_at : Nat := 0
  notification_type : String
  related_email : Option Nat := none
deriving DecidableEq

/-- gotmail_service/models.py UserSettings (one-to-one with User). -/
structure UserSettings where
  user : Nat
  notifications_enabled : Bool := true
  font_size : Nat := 14
  font_family : String := "sans-serif"
  dark_mode : Bool := false
  auto_reply_enabled : Bool := false
  auto_reply_message : Option String := none
  auto_reply_start_date : Option Nat := none
  auto_reply_end_date : Option Nat := none
deriving DecidableEq

/-- One channel-layer group_send call: target group name, the "type"
discriminator of the message dict, and the ids of the serialized email and
notification carried in the payload. -/
structure PushEvent where
  group : String
  kind : String
  emailId : Nat
  notificationId : Nat
deriving DecidableEq

/-- The durable stores plus the log of push events, with id counters for
freshly persisted rows and the current wall clock. -/
structure MailState where
  emails : List Email := []
  notifications : List Notification := []
  pushes : List PushEvent := []
  nextEmailId : Nat := 0
  nextNotificationId : Nat := 0
  now : Nat := 0
deriving DecidableEq

/-- UserSettings.objects.get(user=r): none models DoesNotExist. -/
def SettingsDb : Type := Nat → Option UserSettings

/-- Failure oracle: which collaborator calls raise, per audience-member id.
notifFail: Notification.objects.create in the notify loop; pushFail:
group_send in the notify loop; arEmailFail / arNotifFail / arPushFail: the
corresponding calls inside handle_auto_reply. -/
structure Oracle where
  notifFail : Nat → Bool
  pushFail : Nat → Bool
  arEmailFail : Nat → Bool
  arNotifFail : Nat → Bool
  arPushFail : Nat → Bool

/-- The oracle of a run in which every collaborator call succeeds. -/
def noFail : Oracle :=
  { notifFail := fun _ => false
    pushFail := fun _ => false
    arEmailFail := fun _ => false
    arNotifFail := fun _ => false
    arPushFail := fun _ => false }

/-- Python str(x) on an optional text field: None renders as "None" inside
an f-string. -/
def pyStr : Option String → String
  | none => "None"
  | some t => t

/-- serializers.py plain_text_to_quill_delta: a raw f-string build of the
Quill delta document, with no escaping of the interpolated text. -/
def plain_text_to_quill_delta (text : String) : String :=
  "[\x7b\"insert\": \"" ++ text ++ "\\n\"\x7d]"

/-- The per-user channel naming convention user_{id}_emails. -/
def channelName (uid : Nat) : String :=
  "user_" ++ Nat.repr uid ++ "_emails"

/-- Message text of the notification created for an audience member. -/
def newEmailMsg (email : Email) : String :=
  "You have a new email from " ++ email.sender.first_name ++ " "
    ++ email.sender.last_name ++ "!"

/-- Message text of the notification created for the original sender by the
auto-reply engine. -/
def autoReplyMsg (recipient : PyUser) : String :=
  "You have received an auto-reply from " ++ recipient.first_name ++ " "
    ++ recipient.last_name ++ "."

/-- Deduplication of Django User objects by primary key, keeping the first
occurrence; models the Python set built by notify_recipients (User hashes
and compares by pk; set iteration is a deterministic function of the
inserted elements, fixed here as first-occurrence order). -/
def dedupAux : List PyUser → List Nat → List PyUser
  | [], _ => []
  | u :: rest, seen =>
      if u.id ∈ seen then dedupAux rest seen
      else u :: dedupAux rest (u.id :: seen)

/-- The audience of an email: deduplicated union of recipients, cc, bcc,
in the order notify_recipients builds its set. -/
def audience (email : Email) : List PyUser :=
  dedupAux (email.recipients ++ email.cc ++ email.bcc) []

/-- The auto-reply Email row handle_auto_reply persists when the recipient
is eligible: sender is the recipient, the single recipient is the original
sender (no cc/bcc), subject prefixes "Re: ", the body is the configured
message rendered through plain_text_to_quill_delta, the is_auto_replied
flag is set and reply_to references the original email.  Counters are read
from the state the engine entered with. -/
def arEmailOf (email : Email) (recipient : PyUser) (us : UserSettings)
    (s : MailState) : Email :=
  { id := s.nextEmailId
    sender := recipient
    recipients := [email.sender]
    subject := "Re: " ++ email.subject
    body := plain_text_to_quill_delta (pyStr us.auto_reply_message)
    sent_at := s.now
    is_auto_replied := true
    reply_to := some email.id }

/-- The notification handle_auto_reply creates for the original sender,
weakly linked to the freshly persisted auto-reply email. -/
def arNotifOf (email : Email) (recipient : PyUser) (s : MailState) :
    Notification :=
  { id := s.nextNotificationId
    user := email.sender.id
    message := autoReplyMsg recipient
    created_at := s.now
    notification_type := "email"
    related_email := some s.nextEmailId }

/-- The push event handle_auto_reply sends to the original sender's
channel. -/
def arPushOf (email : Email) (s : MailState) : PushEvent :=
  { group := channelName email.sender.id
    kind := "email_notification"
    emailId := s.nextEmailId
    notificationId := s.nextNotificationId }

/-- serializers.py handle_auto_reply: guard on is_auto_replied, look up the
recipient's settings (DoesNotExist caught), check auto_reply_enabled, then
create the reply email, a notification for the original sender, and push to
the original sender's channel.  Every exception is caught, keeping partial
writes. -/
def handle_auto_reply (o : Oracle) (db : SettingsDb) (email : Email)
    (recipient : PyUser) (s : MailState) : MailState :=
  if !email.is_auto_replied then
    match db recipient.id with
    | none => s
    | some us =>
      if us.auto_reply_enabled then
        if o.arEmailFail recipient.id then s else
        let s1 : MailState :=
          { s with emails := s.emails ++ [arEmailOf email recipient us s]
                   nextEmailId := s.nextEmailId + 1 }
        if o.arNotifFail recipient.id then s1 else
        let s2 : MailState :=
          { s1 with
              notifications := s1.notifications ++ [arNotifOf email recipient s]
              nextNotificationId := s1.nextNotificationId + 1 }
        if o.arPushFail recipient.id then s2 else
        { s2 with pushes := s2.pushes ++ [arPushOf email s] }
      else s
  else s

/-- The notification notify_recipients creates for audience member r. -/
def notifOf (email : Email) (r : PyUser) (s : MailState) : Notification :=
  { id := s.nextNotificationId
    user := r.id
    message := newEmailMsg email
    created_at := s.now
    notification_type := "email"
    related_email := some email.id }

/-- The push event notify_recipients sends to member r's channel, carrying
the serialized email and the member's freshly created notification. -/
def pushOf (email : Email) (r : PyUser) (s : MailState) : PushEvent :=
  { group := channelName r.id
    kind := "email_notification"
    emailId := email.id
    notificationId := s.nextNotificationId }

/-- The body of the per-member try block in notify_recipients: create the
member's notification, push to the member's channel, then run the auto-reply
engine; an injected failure jumps to the except handler, keeping what was
already written and skipping the rest of the block for this member. -/
def notifyOne (o : Oracle) (db : SettingsDb) (email : Email) (r : PyUser)
    (s : MailState) : MailState :=
  if o.notifFail r.id then s else
  let s1 : MailState :=
    { s with notifications := s.notifications ++ [notifOf email r s]
             nextNotificationId := s.nextNotificationId + 1 }
  if o.pushFail r.id then s1 else
  let s2 : MailState := { s1 with pushes := s1.pushes ++ [pushOf email r s] }
  handle_auto_reply o db email r s2

/-- The for-loop of notify_recipients over the audience. -/
def dispatchLoop (o : Oracle) (db : SettingsDb) (email : Email) :
    List PyUser → MailState → MailState
  | [], s => s
  | r :: rest, s => dispatchLoop o db email rest (notifyOne o db email r s)

/-- serializers.py notify_recipients: build the deduplicated audience,
return immediately when it is empty, otherwise process each member. -/
def notify_recipients (o : Oracle) (db : SettingsDb) (email : Email)
    (s : MailState) : MailState :=
  let aud := audience email
  if aud.isEmpty then s
  else dispatchLoop o db email aud s

/-- The validated payload of a send-email request after user resolution. -/
structure SendRequest where
  sender : PyUser
  recipients : List PyUser := []
  cc : List PyUser := []
  bcc : List PyUser := []
  subject : String := ""
  body : String := ""
  is_draft : Bool := false
  reply_to : Option Nat := none

/-- The email row persisted by CreateEmailSerializer.create. -/
def mkEmail (req : SendRequest) (s : MailState) : Email :=
  { id := s.nextEmailId
    sender := req.sender
    recipients := req.recipients
    cc := req.cc
    bcc := req.bcc
    subject := req.subject
    body := req.body
    sent_at := s.now
    is_draft := req.is_draft
    reply_to := req.reply_to }

/-- CreateEmailSerializer.create as driven by SendEmailView: after the
synchronous recipient check, persist the email, run notify_recipients, and
return the created email; a validation failure surfaces as an error. -/
def createEmailAndSend (o : Oracle) (db : SettingsDb) (req : SendRequest)
    (s : MailState) : Except String (Email × MailState) :=
  if req.recipients.isEmpty then
    Except.error "At least one recipient is required."
  else
    let email := mkEmail req s
    let s1 : MailState :=
      { s with emails := s.emails ++ [email]
               nextEmailId := s.nextEmailId + 1 }
    Except.ok (email, notify_recipients o db email s1)

/-
Connection registry (gotmail_service/consumers.py EmailConsumer).
The class-level active_connections dict maps a user id to the list of that
user's registered channel names; the channel layer maps a group name to the
channels subscribed to it.  Both are modelled as functions, with an Option
on the registry so that a deleted key is distinguishable from an empty
list. -/

/-- Process-memory registry state: channel-layer group membership and the
class-level active_connections mapping. -/
structure RegState where
  groups : String → List String
  active : Nat → Option (List String)

/-- channel_layer.group_discard: remove a channel from a group; removing a
channel that is not subscribed is a no-op. -/
def groupDiscard (gs : String → List String) (g ch : String) :
    String → List String :=
  fun name => if name == g then (gs name).filter (fun x => !(x == ch)) else gs name

/-- channel_layer.group_add: subscribe a channel to a group (set-like). -/
def groupAdd (gs : String → List String) (g ch : String) :
    String → List String :=
  fun name =>
    if name == g then (if ch ∈ gs name then gs name else gs name ++ [ch])
    else gs name

/-- EmailConsumer.connect after successful identity resolution: discard
every stale channel of the user from the user's group, reset the registry
entry to the empty list, subscribe the new channel, and append it to the
registry entry. -/
def connect (u : Nat) (ch : String) (st : RegState) : RegState :=
  let g := channelName u
  let stale := (st.active u).getD []
  let groups1 := stale.foldl (fun gs c => groupDiscard gs g c) st.groups
  let active1 : Nat → Option (List String) :=
    fun v => if v == u then some [] else st.active v
  let groups2 := groupAdd groups1 g ch
  let active2 : Nat → Option (List String) :=
    fun v => if v == u then some (((active1 u).getD []) ++ [ch]) else active1 v
  { groups := groups2, active := active2 }

/-- EmailConsumer.disconnect: discard the channel from the group, then
remove it from the registry entry; a missing key (KeyError) or a channel
absent from the entry (ValueError) is caught by the except block, and an
entry emptied by the removal is deleted. -/
def disconnect (u : Nat) (ch : String) (st : RegState) : RegState :=
  let g := channelName u
  let groups1 := groupDiscard st.groups g ch
  match st.active u with
  | none => { groups := groups1, active := st.active }
  | some l =>
    if ch ∈ l then
      let l2 := l.erase ch
      if l2.isEmpty then
        { groups := groups1
          active := fun v => if v == u then none else st.active v }
      else
        { groups := groups1
          active := fun v => if v == u then some l2 else st.active v }
    else { groups := groups1, active := st.active }

/-- The connections a group_send addressed to user u is delivered to: the
current subscribers of the user's channel. -/
def publishTargets (u : Nat) (st : RegState) : List String :=
  st.groups (channelName u)

/-
A small JSON well-formedness checker, used to state that the raw string
interpolation of plain_text_to_quill_delta can produce output that is not
JSON.  It is a standard recursive-descent recognizer for RFC 8259 JSON
text, fuelled so that every definition is structurally recursive and
kernel-evaluable. -/

/-- JSON insignificant whitespace. -/
def skipWs : List Char → List Char
  | c :: rest =>
      if c = ' ' ∨ c = '\t' ∨ c = '\n' ∨ c = '\r' then skipWs rest
      else c :: rest
  | [] => []

/-- Hexadecimal digit test for \u escapes. -/
def isHexDigit (c : Char) : Bool :=
  c.isDigit || ('a' ≤ c && c ≤ 'f') || ('A' ≤ c && c ≤ 'F')

/-- Recognize the body of a JSON string after the opening quote, returning
the input after the closing quote. -/
def jsonStrBody : List Char → Option (List Char)
  | [] => none
  | c :: rest =>
    if c = '"' then some rest
    else if c = '\\' then
      match rest with
      | [] => none
      | e :: rest2 =>
        if e = '"' ∨ e = '\\' ∨ e = '/' ∨ e = 'b' ∨ e = 'f' ∨ e = 'n'
            ∨ e = 'r' ∨ e = 't' then jsonStrBody rest2
        else if e = 'u' then
          match rest2 with
          | a :: b :: c2 :: d :: rest3 =>
              if isHexDigit a && isHexDigit b && isHexDigit c2 && isHexDigit d
              then jsonStrBody rest3 else none
          | _ => none
        else none
    else if c.toNat < 32 then none
    else jsonStrBody rest

/-- Strip a leading run of decimal digits. -/
def stripDigits : List Char → List Char
  | c :: rest => if c.isDigit then stripDigits rest else c :: rest
  | [] => []

/-- Require at least one decimal digit, then strip the run. -/
def stripDigits1 : List Char → Option (List Char)
  | c :: rest => if c.isDigit then some (stripDigits rest) else none
  | [] => none

/-- Recognize the optional exponent part of a JSON number. -/
def jsonNumExp (s : List Char) : Option (List Char) :=
  match s with
  | c :: r =>
      if c = 'e' ∨ c = 'E' then
        match r with
        | '+' :: r2 => stripDigits1 r2
        | '-' :: r2 => stripDigits1 r2
        | _ => stripDigits1 r
      else some s
  | [] => some s

/-- Recognize the optional fraction part of a JSON number, then the
exponent. -/
def jsonNumFrac (s : List Char) : Option (List Char) :=
  match s with
  | '.' :: r =>
      match stripDigits1 r with
      | some r2 => jsonNumExp r2
      | none => none
  | _ => jsonNumExp s

/-- Recognize a JSON number. -/
def jsonNum (s : List Char) : Option (List Char) :=
  let s1 := match s with
    | '-' :: r => r
    | _ => s
  match s1 with
  | '0' :: r => jsonNumFrac r
  | c :: r => if c.isDigit then jsonNumFrac (stripDigits r) else none
  | [] => none

/-- Match an exact literal tail (rue / alse / ull). -/
def expectLit : List Char → List Char → Option (List Char)
  | [], s => some s
  | l :: ls, c :: rest => if c = l then expectLit ls rest else none
  | _ :: _, [] => none

/-- Parsing mode of the fuelled JSON recognizer: a single value, the item
list of an array, or the member list of an object. -/
inductive JMode
  | value
  | elems
  | members

/-- Fuelled recursive-descent JSON recognizer; returns the unconsumed
input on success. -/
def jparse : Nat → JMode → List Char → Option (List Char)
  | 0, _, _ => none
  | f + 1, JMode.value, s =>
    match skipWs s with
    | [] => none
    | c :: rest =>
      if c = '"' then jsonStrBody rest
      else if c = '[' then
        match skipWs rest with
        | ']' :: r2 => some r2
        | _ => jparse f JMode.elems rest
      else if c = '\x7b' then
        match skipWs rest with
        | '\x7d' :: r2 => some r2
        | _ => jparse f JMode.members rest
      else if c = 't' then expectLit ['r', 'u', 'e'] rest
      else if c = 'f' then expectLit ['a', 'l', 's', 'e'] rest
      else if c = 'n' then expectLit ['u', 'l', 'l'] rest
      else jsonNum (c :: rest)
  | f + 1, JMode.elems, s =>
    match jparse f JMode.value s with
    | none => none
    | some r =>
      match skipWs r with
      | ',' :: r2 => jparse f JMode.elems r2
      | ']' :: r2 => some r2
      | _ => none
  | f + 1, JMode.members, s =>
    match skipWs s with
    | c :: rest =>
      if c = '"' then
        match jsonStrBody rest with
        | none => none
        | some r =>
          match skipWs r with
          | ':' :: r2 =>
            match jparse f JMode.value r2 with
            | none => none
            | some r3 =>
              match skipWs r3 with
              | ',' :: r4 => jparse f JMode.members r4
              | '\x7d' :: r4 => some r4
              | _ => none
          | _ => none
      else none
    | [] => none

/-- A string is well-formed JSON text when the recognizer consumes it
entirely (up to trailing whitespace). -/
def jsonOk (s : String) : Bool :=
  match jparse (2 * s.length + 4) JMode.value s.data with
  | some r => (skipWs r).isEmpty
  | none => false

/-
Projections used to state properties of the stores before/after a dispatch
run. -/

/-- The notification is weakly linked to the email with the given id. -/
def relatedTo (eid : Nat) (n : Notification) : Bool :=
  n.related_email == some eid

/-- The push event carries the serialized email with the given id. -/
def forEmail (eid : Nat) (p : PushEvent) : Bool :=
  p.emailId == eid

/-- Owner, message and type tag of a notification (the id-free content). -/
def notifProj (n : Notification) : Nat × String × String :=
  (n.user, n.message, n.notification_type)

/-- The expected content of the notification dispatch creates for audience
member r of the given email. -/
def canonProj (email : Email) (r : PyUser) : Nat × String × String :=
  (r.id, newEmailMsg email, "email")

/-- The member's notification creation succeeds under the oracle. -/
def okNotif (o : Oracle) (r : PyUser) : Bool :=
  !(o.notifFail r.id)

/-- Both the member's notification creation and its push succeed. -/
def okPush (o : Oracle) (r : PyUser) : Bool :=
  !(o.notifFail r.id) && !(o.pushFail r.id)

/-
Concrete inputs used to instantiate the theorems on executable data. -/

/-- Sample sender. -/
def alice : PyUser := { id := 1, first_name := "Alice", last_name := "A" }

/-- Sample recipient with auto-reply enabled in demoDb. -/
def bob : PyUser := { id := 2, first_name := "Bob", last_name := "B" }

/-- Sample recipient without settings. -/
def carol : PyUser := { id := 3, first_name := "Carol", last_name := "C" }

/-- Bob's settings: auto-reply on, message "Away". -/
def demoSettings : UserSettings :=
  { user := 2, auto_reply_enabled := true, auto_reply_message := some "Away" }

/-- Settings store holding only Bob's record. -/
def demoDb : SettingsDb := fun u => if u == 2 then some demoSettings else none

/-- Alice's email to Bob and Carol, with Bob duplicated in cc. -/
def demoEmail : Email :=
  { id := 0, sender := alice, recipients := [bob, carol], cc := [bob],
    subject := "Hello" }

/-- An already-generated auto-reply email from Bob to Alice. -/
def demoReply : Email :=
  { id := 5, sender := bob, recipients := [alice], subject := "Re: Hello",
    is_auto_replied := true, reply_to := some 0 }

/-- Store state with demoEmail persisted. -/
def demoState : MailState := { emails := [demoEmail], nextEmailId := 1 }

/-- Store state with demoReply persisted. -/
def demoReplyState : MailState := { emails := [demoReply], nextEmailId := 6 }

/-- A validated send request from Alice to Bob. -/
def demoReq : SendRequest :=
  { sender := alice, recipients := [bob], subject := "Hi" }

/-- The oracle under which every collaborator call raises. -/
def allFail : Oracle :=
  { notifFail := fun _ => true
    pushFail := fun _ => true
    arEmailFail := fun _ => true
    arNotifFail := fun _ => true
    arPushFail := fun _ => true }

/-- The oracle under which only Carol's notification creation raises. -/
def failCarol : Oracle :=
  { notifFail := fun u => u == 3
    pushFail := fun _ => false
    arEmailFail := fun _ => false
    arNotifFail := fun _ => false
    arPushFail := fun _ => false }

/-- Registry state for user 7 with two stale connections. -/
def demoReg : RegState :=
  { groups := fun name =>
      if name == channelName 7 then ["cOld1", "cOld2"] else []
    active := fun v => if v == 7 then some ["cOld1", "cOld2"] else none }

/-- Registry state with a single connection for user 7 and one for user 9. -/
def demoReg2 : RegState :=
  { groups := fun name =>
      if name == channelName 7 then ["chA"]
      else if name == channelName 9 then ["chB"] else []
    active := fun v =>
      if v == 7 then some ["chA"] else if v == 9 then some ["chB"] else none }

/-
Structural lemmas about the auto-reply engine and the dispatch loop. -/

theorem ha_auto (o : Oracle) (db : SettingsDb) (email : Email) (r : PyUser)
    (s : MailState) (h : email.is_auto_replied = true) :
    handle_auto_reply o db email r s = s := by
  unfold handle_auto_reply
  simp [h]

theorem ha_shape (o : Oracle) (db : SettingsDb) (email : Email) (r : PyUser)
    (s : MailState) :
    ∃ em nt ps,
      handle_auto_reply o db email r s =
        { s with emails := s.emails ++ em
                 notifications := s.notifications ++ nt
                 pushes := s.pushes ++ ps
                 nextEmailId := s.nextEmailId + em.length
                 nextNotificationId := s.nextNotificationId + nt.length } ∧
      (∀ n ∈ nt, n.related_email = some s.nextEmailId ∧
        n.notification_type = "email") ∧
      (∀ p ∈ ps, p.emailId = s.nextEmailId) := by
  unfold handle_auto_reply
  cases hg : email.is_auto_replied with
  | true => exact ⟨[], [], [], by simp, by simp, by simp⟩
  | false =>
    cases hdb : db r.id with
    | none => exact ⟨[], [], [], by simp, by simp, by simp⟩
    | some us =>
      cases he : us.auto_reply_enabled with
      | false => exact ⟨[], [], [], by simp [he], by simp, by simp⟩
      | true =>
        cases hef : o.arEmailFail r.id with
        | true => exact ⟨[], [], [], by simp [he, hef], by simp, by simp⟩
        | false =>
          cases hnf : o.arNotifFail r.id with
          | true =>
            refine ⟨[arEmailOf email r us s], [], [], ?_, by simp, by simp⟩
            simp [he, hef, hnf]
          | false =>
            cases hpf : o.arPushFail r.id with
            | true =>
              refine ⟨[arEmailOf email r us s], [arNotifOf email r s], [],
                ?_, ?_, by simp⟩
              · simp [he, hef, hnf, hpf]
              · intro n hn
                simp at hn
                subst hn
                exact ⟨rfl, rfl⟩
            | false =>
              refine ⟨[arEmailOf email r us s], [arNotifOf email r s],
                [arPushOf email s], ?_, ?_, ?_⟩
              · simp [he, hef, hnf, hpf]
              · intro n hn
                simp at hn
                subst hn
                exact ⟨rfl, rfl⟩
              · intro p hp
                simp at hp
                subst hp
                rfl

theorem notifyOne_spec (o : Oracle) (db : SettingsDb) (email : Email)
    (r : PyUser) (s : MailState) (h : email.id < s.nextEmailId) :
    ∃ em nt ps,
      (notifyOne o db email r s).emails = s.emails ++ em ∧
      (notifyOne o db email r s).notifications = s.notifications ++ nt ∧
      (notifyOne o db email r s).pushes = s.pushes ++ ps ∧
      s.nextEmailId ≤ (notifyOne o db email r s).nextEmailId ∧
      (nt.filter (relatedTo email.id)).map notifProj =
        (if okNotif o r then [canonProj email r] else []) ∧
      (ps.filter (forEmail email.id)).map (fun p => p.group) =
        (if okPush o r then [channelName r.id] else []) := by
  have hne : (s.nextEmailId == email.id) = false := by
    simp [Nat.ne_of_gt h]
  cases hn : o.notifFail r.id with
  | true =>
    refine ⟨[], [], [], ?_, ?_, ?_, ?_, ?_, ?_⟩ <;>
      simp [notifyOne, hn, okNotif, okPush]
  | false =>
    cases hp : o.pushFail r.id with
    | true =>
      refine ⟨[], [notifOf email r s], [], ?_, ?_, ?_, ?_, ?_, ?_⟩ <;>
        simp [notifyOne, hn, hp, okNotif, okPush, relatedTo, notifProj,
          canonProj, notifOf]
    | false =>
      obtain ⟨em2, nt2, ps2, heq, hnt2, hps2⟩ :=
        ha_shape o db email r
          { s with notifications := s.notifications ++ [notifOf email r s]
                   nextNotificationId := s.nextNotificationId + 1
                   pushes := s.pushes ++ [pushOf email r s] }
      have hred : notifyOne o db email r s =
          handle_auto_reply o db email r
            { s with notifications := s.notifications ++ [notifOf email r s]
                     nextNotificationId := s.nextNotificationId + 1
                     pushes := s.pushes ++ [pushOf email r s] } := by
        simp [notifyOne, hn, hp]
      refine ⟨em2, [notifOf email r s] ++ nt2, [pushOf email r s] ++ ps2,
        ?_, ?_, ?_, ?_, ?_, ?_⟩
      · rw [hred, heq]
      · rw [hred, heq]
        simp
      · rw [hred, heq]
        simp
      · rw [hred, heq]
        exact Nat.le_add_right _ _
      · have hnil : nt2.filter (relatedTo email.id) = [] := by
          rw [List.filter_eq_nil_iff]
          intro n hnmem
          obtain ⟨hrel, _⟩ := hnt2 n hnmem
          simp [relatedTo, hrel, Nat.ne_of_gt h]
        simp [List.filter_append, hnil, relatedTo, notifOf, notifProj,
          canonProj, okNotif, hn]
      · have hnil : ps2.filter (forEmail email.id) = [] := by
          rw [List.filter_eq_nil_iff]
          intro p hpmem
          have hrel := hps2 p hpmem
          simp [forEmail, hrel, Nat.ne_of_gt h]
        simp [List.filter_append, hnil, forEmail, pushOf, okPush, hn, hp]

theorem loop_spec (o : Oracle) (db : SettingsDb) (email : Email)
    (l : List PyUser) :
    ∀ s : MailState, email.id < s.nextEmailId →
    ∃ em nt ps,
      (dispatchLoop o db email l s).emails = s.emails ++ em ∧
      (dispatchLoop o db email l s).notifications = s.notifications ++ nt ∧
      (dispatchLoop o db email l s).pushes = s.pushes ++ ps ∧
      s.nextEmailId ≤ (dispatchLoop o db email l s).nextEmailId ∧
      (nt.filter (relatedTo email.id)).map notifProj =
        (l.filter (okNotif o)).map (canonProj email) ∧
      (ps.filter (forEmail email.id)).map (fun p => p.group) =
        (l.filter (okPush o)).map (fun r => channelName r.id) := by
  induction l with
  | nil =>
    intro s _
    exact ⟨[], [], [], by simp [dispatchLoop], by simp [dispatchLoop],
      by simp [dispatchLoop], by simp [dispatchLoop], by simp, by simp⟩
  | cons r rest ih =>
    intro s h
    obtain ⟨em1, nt1, ps1, he1, hn1, hp1, hm1, hf1, hg1⟩ :=
      notifyOne_spec o db email r s h
    obtain ⟨em2, nt2, ps2, he2, hn2, hp2, hm2, hf2, hg2⟩ :=
      ih (notifyOne o db email r s) (lt_of_lt_of_le h hm1)
    have hstep : dispatchLoop o db email (r :: rest) s =
        dispatchLoop o db email rest (notifyOne o db email r s) := rfl
    refine ⟨em1 ++ em2, nt1 ++ nt2, ps1 ++ ps2, ?_, ?_, ?_, ?_, ?_, ?_⟩
    · rw [hstep, he2, he1, List.append_assoc]
    · rw [hstep, hn2, hn1, List.append_assoc]
    · rw [hstep, hp2, hp1, List.append_assoc]
    · rw [hstep]
      exact le_trans hm1 hm2
    · rw [List.filter_append, List.map_append, hf1, hf2, List.filter_cons]
      cases hok : okNotif o r <;> simp [hok]
    · rw [List.filter_append, List.map_append, hg1, hg2, List.filter_cons]
      cases hok : okPush o r <;> simp [hok]

/-- Dispatching an email whose is_auto_replied flag is set never touches the
email store: the auto-reply guard short-circuits for every member. -/
theorem loop_emails_auto (o : Oracle) (db : SettingsDb) (email : Email)
    (l : List PyUser) (h : email.is_auto_replied = true) :
    ∀ s : MailState, (dispatchLoop o db email l s).emails = s.emails := by
  induction l with
  | nil => intro s; rfl
  | cons r rest ih =>
    intro s
    have hone : (notifyOne o db email r s).emails = s.emails := by
      unfold notifyOne
      cases hn : o.notifFail r.id with
      | true => simp
      | false =>
        cases hp : o.pushFail r.id with
        | true => simp
        | false =>
          simp only [Bool.false_eq_true, if_false]
          rw [ha_auto o db email r _ h]
    have hstep : dispatchLoop o db email (r :: rest) s =
        dispatchLoop o db email rest (notifyOne o db email r s) := rfl
    rw [hstep, ih, hone]

theorem notify_spec (o : Oracle) (db : SettingsDb) (email : Email)
    (s : MailState) (h : email.id < s.nextEmailId) :
    ∃ em nt ps,
      (notify_recipients o db email s).emails = s.emails ++ em ∧
      (notify_recipients o db email s).notifications = s.notifications ++ nt ∧
      (notify_recipients o db email s).pushes = s.pushes ++ ps ∧
      (nt.filter (relatedTo email.id)).map notifProj =
        ((audience email).filter (okNotif o)).map (canonProj email) ∧
      (ps.filter (forEmail email.id)).map (fun p => p.group) =
        ((audience email).filter (okPush o)).map (fun r => channelName r.id)
    := by
  unfold notify_recipients
  by_cases he : (audience email).isEmpty
  · have haud : audience email = [] := List.isEmpty_iff.mp he
    exact ⟨[], [], [], by simp [he], by simp [he], by simp [he],
      by simp [haud], by simp [haud]⟩
  · obtain ⟨em, nt, ps, h1, h2, h3, _, h5, h6⟩ :=
      loop_spec o db email (audience email) s h
    exact ⟨em, nt, ps, by simp [he, h1], by simp [he, h2], by simp [he, h3],
      h5, h6⟩

/-
Deduplication lemmas: the audience lists each distinct user id exactly
once, and covers exactly the ids occurring in recipients, cc or bcc. -/

theorem dedupAux_mem (l : List PyUser) :
    ∀ (seen : List Nat) (x : Nat),
      x ∈ (dedupAux l seen).map (fun u => u.id) ↔
        (x ∈ l.map (fun u => u.id) ∧ x ∉ seen) := by
  induction l with
  | nil =>
    intro seen x
    simp [dedupAux]
  | cons u rest ih =>
    intro seen x
    by_cases hu : u.id ∈ seen
    · rw [show dedupAux (u :: rest) seen = dedupAux rest seen from by
        simp [dedupAux, hu]]
      rw [ih seen x]
      simp only [List.map_cons, List.mem_cons]
      constructor
      · rintro ⟨hm, hs⟩
        exact ⟨Or.inr hm, hs⟩
      · rintro ⟨hm | hm, hs⟩
        · subst hm
          exact absurd hu hs
        · exact ⟨hm, hs⟩
    · rw [show dedupAux (u :: rest) seen = u :: dedupAux rest (u.id :: seen)
          from by simp [dedupAux, hu]]
      simp only [List.map_cons, List.mem_cons]
      rw [ih (u.id :: seen) x]
      constructor
      · rintro (hm | ⟨hm, hs⟩)
        · subst hm
          exact ⟨Or.inl rfl, hu⟩
        · exact ⟨Or.inr hm, fun hsx => hs (List.mem_cons.mpr (Or.inr hsx))⟩
      · rintro ⟨hm | hm, hs⟩
        · subst hm
          exact Or.inl rfl
        · by_cases hx : x = u.id
          · exact Or.inl hx
          · refine Or.inr ⟨hm, fun hsx => ?_⟩
            rcases List.mem_cons.mp hsx with h1 | h2
            · exact hx h1
            · exact hs h2

theorem dedupAux_nodup (l : List PyUser) :
    ∀ seen : List Nat, ((dedupAux l seen).map (fun u => u.id)).Nodup := by
  induction l with
  | nil =>
    intro seen
    simp [dedupAux]
  | cons u rest ih =>
    intro seen
    by_cases hu : u.id ∈ seen
    · rw [show dedupAux (u :: rest) seen = dedupAux rest seen from by
        simp [dedupAux, hu]]
      exact ih seen
    · rw [show dedupAux (u :: rest) seen = u :: dedupAux rest (u.id :: seen)
          from by simp [dedupAux, hu]]
      simp only [List.map_cons, List.nodup_cons]
      refine ⟨fun hmem => ?_, ih (u.id :: seen)⟩
      have hinfo := (dedupAux_mem rest (u.id :: seen) u.id).mp hmem
      exact hinfo.2 (List.mem_cons_self _ _)

theorem audience_ids_nodup (email : Email) :
    ((audience email).map (fun u => u.id)).Nodup :=
  dedupAux_nodup _ []

theorem audience_ids_mem (email : Email) (x : Nat) :
    x ∈ (audience email).map (fun u => u.id) ↔
      x ∈ (email.recipients ++ email.cc ++ email.bcc).map (fun u => u.id)
    := by
  rw [audience, dedupAux_mem]
  simp

/-
Counting helpers over lists of user ids. -/

theorem countP_eq_one_of_nodup_mem {l : List Nat} {a : Nat}
    (hn : l.Nodup) (hm : a ∈ l) : l.countP (fun x => x == a) = 1 := by
  induction l with
  | nil => cases hm
  | cons b rest ih =>
    rw [List.countP_cons]
    rcases List.mem_cons.mp hm with hb | hb
    · subst hb
      have hz : rest.countP (fun x => x == a) = 0 := by
        rw [List.countP_eq_zero]
        intro x hx
        have hne : x ≠ a := fun he => (List.nodup_cons.mp hn).1 (he ▸ hx)
        simp [hne]
      simp [hz]
    · have hbne : b ≠ a := by
        intro he
        subst he
        exact (List.nodup_cons.mp hn).1 hb
      rw [ih (List.nodup_cons.mp hn).2 hb]
      simp [hbne]

theorem countP_eq_zero_of_not_mem {l : List Nat} {a : Nat} (hm : a ∉ l) :
    l.countP (fun x => x == a) = 0 := by
  rw [List.countP_eq_zero]
  intro x hx
  have hne : x ≠ a := fun he => hm (he ▸ hx)
  simp [hne]

/-
Registry lemmas: folding group_discard over the stale channels empties the
user's group when every subscriber was registered. -/

theorem foldl_discard_apply (g : String) (stale : List String) :
    ∀ gs : String → List String,
      (stale.foldl (fun f c => groupDiscard f g c) gs) g =
        stale.foldl (fun cur c => cur.filter (fun x => !(x == c))) (gs g) := by
  induction stale with
  | nil =>
    intro gs
    rfl
  | cons c cs ih =>
    intro gs
    rw [List.foldl_cons, List.foldl_cons, ih]
    congr 1
    simp [groupDiscard]

theorem foldl_filter_nil (stale : List String) :
    ∀ l : List String, (∀ c ∈ l, c ∈ stale) →
      stale.foldl (fun cur c => cur.filter (fun x => !(x == c))) l = [] := by
  induction stale with
  | nil =>
    intro l hsub
    have hl : l = [] := by
      cases l with
      | nil => rfl
      | cons a rest => cases hsub a (List.mem_cons_self a rest)
    simp [hl]
  | cons c cs ih =>
    intro l hsub
    rw [List.foldl_cons]
    apply ih
    intro x hx
    have hxl := List.mem_of_mem_filter hx
    have hxc := List.of_mem_filter hx
    have hne : x ≠ c := by simpa using hxc
    rcases List.mem_cons.mp (hsub x hxl) with h1 | h2
    · exact absurd h1 hne
    · exact h2

/-- Specialization of notify_spec to the all-success oracle: the new
notifications linked to the email, projected to id-free content, list the
audience in processing order, and likewise for the push groups. -/
theorem notify_noFail_order (db : SettingsDb) (email : Email) (s : MailState)
    (h : email.id < s.nextEmailId) :
    ∃ nt ps,
      (notify_recipients noFail db email s).notifications =
        s.notifications ++ nt ∧
      (notify_recipients noFail db email s).pushes = s.pushes ++ ps ∧
      (nt.filter (relatedTo email.id)).map notifProj =
        (audience email).map (canonProj email) ∧
      (nt.filter (relatedTo email.id)).map (fun n => n.user) =
        (audience email).map (fun r => r.id) ∧
      (ps.filter (forEmail email.id)).map (fun p => p.group) =
        (audience email).map (fun r => channelName r.id) := by
  obtain ⟨em, nt, ps, _, hn, hp, hf, hg⟩ := notify_spec noFail db email s h
  have hfs1 : (audience email).filter (okNotif noFail) = audience email :=
    List.filter_eq_self.mpr (fun a _ => rfl)
  have hfs2 : (audience email).filter (okPush noFail) = audience email :=
    List.filter_eq_self.mpr (fun a _ => rfl)
  rw [hfs1] at hf
  rw [hfs2] at hg
  refine ⟨nt, ps, hn, hp, hf, ?_, hg⟩
  have hmm := congrArg (List.map (fun t : Nat × String × String => t.1)) hf
  rw [List.map_map, List.map_map] at hmm
  simpa only [Function.comp, notifProj, canonProj] using hmm

/-
Claim theorems. -/

/-- C1: an email with the auto-replied flag set never triggers a further
auto-reply.  For every recipient, every settings store (including one whose
entry for that recipient has auto_reply_enabled = true) and every failure
oracle, handle_auto_reply short-circuits returning the state unchanged — no
effect on the email store, the notification store or the push channel — and
running the full dispatch pipeline on such an email creates no email at
all. -/
theorem auto_replied_email_triggers_no_reply (o : Oracle) (db : SettingsDb)
    (email : Email) (r : PyUser) (s : MailState)
    (h : email.is_auto_replied = true) :
    handle_auto_reply o db email r s = s ∧
    (notify_recipients o db email s).emails = s.emails := by
  refine ⟨ha_auto o db email r s h, ?_⟩
  unfold notify_recipients
  by_cases he : (audience email).isEmpty
  · simp [he]
  · simp [he, loop_emails_auto o db email (audience email) h s]

/-- Witness for the loop-termination theorem: demoReply has
is_auto_replied = true and demoDb has auto_reply_enabled = true for Bob. -/
theorem auto_replied_email_triggers_no_reply_witness :
    demoReply.is_auto_replied = true ∧
    (handle_auto_reply noFail demoDb demoReply bob demoReplyState =
        demoReplyState ∧
      (notify_recipients noFail demoDb demoReply demoReplyState).emails =
        demoReplyState.emails) :=
  ⟨rfl, auto_replied_email_triggers_no_reply noFail demoDb demoReply bob
    demoReplyState rfl⟩

/-- C2: dispatching a persisted email under the all-success oracle creates,
among the new notifications weakly linked to that email, exactly one per
distinct audience member — counting 1 for every user id occurring anywhere
in recipients, cc or bcc, even when the member appears in several of the
three lists, and 0 for everyone else — each owned by that member with type
"email"; and an email with empty audience dispatches to nothing: the state
is returned unchanged, so no notification is created and no event is
published. -/
theorem dispatch_exactly_one_notification_per_member (db : SettingsDb)
    (email : Email) (s : MailState) (h : email.id < s.nextEmailId) :
    (email.recipients ++ email.cc ++ email.bcc = [] →
      notify_recipients noFail db email s = s) ∧
    ∃ nt ps,
      (notify_recipients noFail db email s).notifications =
        s.notifications ++ nt ∧
      (notify_recipients noFail db email s).pushes = s.pushes ++ ps ∧
      (∀ n ∈ nt.filter (relatedTo email.id),
        n.notification_type = "email" ∧ n.related_email = some email.id) ∧
      (∀ u : Nat,
        (nt.filter (relatedTo email.id)).countP (fun n => n.user == u) =
          if u ∈ (email.recipients ++ email.cc ++ email.bcc).map
            (fun v => v.id) then 1 else 0) := by
  constructor
  · intro hempty
    have haud : audience email = [] := by
      rw [audience, hempty]
      rfl
    simp [notify_recipients, haud]
  · obtain ⟨nt, ps, hn, hp, hproj, howners, hg⟩ :=
      notify_noFail_order db email s h
    refine ⟨nt, ps, hn, hp, ?_, ?_⟩
    · intro n hnmem
      have hrel : n.related_email = some email.id := by
        simpa [relatedTo] using List.of_mem_filter hnmem
      refine ⟨?_, hrel⟩
      have hmem2 : notifProj n ∈ (audience email).map (canonProj email) := by
        rw [← hproj]
        exact List.mem_map_of_mem notifProj hnmem
      obtain ⟨r, _, hr⟩ := List.mem_map.mp hmem2
      have htriple := congrArg (fun t : Nat × String × String => t.2.2) hr
      simpa [notifProj, canonProj] using htriple.symm
    · intro u
      have hc1 : (nt.filter (relatedTo email.id)).countP
            (fun n => n.user == u) =
          ((nt.filter (relatedTo email.id)).map (fun n => n.user)).countP
            (fun x => x == u) := by
        rw [List.countP_map]
        rfl
      rw [hc1, howners]
      by_cases hu : u ∈ (email.recipients ++ email.cc ++ email.bcc).map
          (fun v => v.id)
      · rw [if_pos hu]
        exact countP_eq_one_of_nodup_mem (audience_ids_nodup email)
          ((audience_ids_mem email u).mpr hu)
      · rw [if_neg hu]
        exact countP_eq_zero_of_not_mem
          (fun hm => hu ((audience_ids_mem email u).mp hm))

/-- Witness for the per-member notification theorem at demoEmail (Bob
listed both in recipients and in cc) dispatched from demoState. -/
theorem dispatch_exactly_one_notification_per_member_witness :
    demoEmail.id < demoState.nextEmailId ∧
    ((demoEmail.recipients ++ demoEmail.cc ++ demoEmail.bcc = [] →
      notify_recipients noFail demoDb demoEmail demoState = demoState) ∧
    ∃ nt ps,
      (notify_recipients noFail demoDb demoEmail demoState).notifications =
        demoState.notifications ++ nt ∧
      (notify_recipients noFail demoDb demoEmail demoState).pushes =
        demoState.pushes ++ ps ∧
      (∀ n ∈ nt.filter (relatedTo demoEmail.id),
        n.notification_type = "email" ∧
          n.related_email = some demoEmail.id) ∧
      (∀ u : Nat,
        (nt.filter (relatedTo demoEmail.id)).countP (fun n => n.user == u) =
          if u ∈ (demoEmail.recipients ++ demoEmail.cc ++
            demoEmail.bcc).map (fun v => v.id) then 1 else 0)) :=
  ⟨by decide, dispatch_exactly_one_notification_per_member demoDb demoEmail
    demoState (by decide)⟩

/-- C3: when the original email is not itself an auto-reply and the
recipient's settings exist with auto_reply_enabled = true, handle_auto_reply
creates exactly one auto-reply email for this (email, recipient) invocation
— sender the recipient, subject "Re: " plus the original subject, body the
configured message rendered into the Quill-delta storage format,
auto_replied set, reply_to the original email, recipients exactly the
original sender with no cc/bcc — plus exactly one notification owned by the
original sender (type "email", linked to the new email) and exactly one
push event to the original sender's channel. -/
theorem auto_reply_creates_exactly_one_reply (db : SettingsDb)
    (email : Email) (r : PyUser) (us : UserSettings) (s : MailState)
    (h1 : email.is_auto_replied = false) (h2 : db r.id = some us)
    (h3 : us.auto_reply_enabled = true) :
    handle_auto_reply noFail db email r s =
      { s with
          emails := s.emails ++ [arEmailOf email r us s]
          notifications := s.notifications ++ [arNotifOf email r s]
          pushes := s.pushes ++ [arPushOf email s]
          nextEmailId := s.nextEmailId + 1
          nextNotificationId := s.nextNotificationId + 1 } ∧
    arEmailOf email r us s =
      { id := s.nextEmailId
        sender := r
        recipients := [email.sender]
        cc := []
        bcc := []
        subject := "Re: " ++ email.subject
        body := plain_text_to_quill_delta (pyStr us.auto_reply_message)
        sent_at := s.now
        is_auto_replied := true
        reply_to := some email.id } ∧
    arNotifOf email r s =
      { id := s.nextNotificationId
        user := email.sender.id
        message := autoReplyMsg r
        created_at := s.now
        notification_type := "email"
        related_email := some s.nextEmailId } ∧
    arPushOf email s =
      { group := channelName email.sender.id
        kind := "email_notification"
        emailId := s.nextEmailId
        notificationId := s.nextNotificationId } := by
  refine ⟨?_, rfl, rfl, rfl⟩
  unfold handle_auto_reply
  rw [h1, h2]
  simp [h3, noFail]

/-- Witness for the auto-reply creation theorem: Bob has settings with
auto-reply enabled in demoDb and demoEmail is not an auto-reply. -/
theorem auto_reply_creates_exactly_one_reply_witness :
    demoEmail.is_auto_replied = false ∧
    demoDb bob.id = some demoSettings ∧
    demoSettings.auto_reply_enabled = true ∧
    (handle_auto_reply noFail demoDb demoEmail bob demoState =
      { demoState with
          emails := demoState.emails ++
            [arEmailOf demoEmail bob demoSettings demoState]
          notifications := demoState.notifications ++
            [arNotifOf demoEmail bob demoState]
          pushes := demoState.pushes ++ [arPushOf demoEmail demoState]
          nextEmailId := demoState.nextEmailId + 1
          nextNotificationId := demoState.nextNotificationId + 1 } ∧
    arEmailOf demoEmail bob demoSettings demoState =
      { id := demoState.nextEmailId
        sender := bob
        recipients := [demoEmail.sender]
        cc := []
        bcc := []
        subject := "Re: " ++ demoEmail.subject
        body := plain_text_to_quill_delta
          (pyStr demoSettings.auto_reply_message)
        sent_at := demoState.now
        is_auto_replied := true
        reply_to := some demoEmail.id } ∧
    arNotifOf demoEmail bob demoState =
      { id := demoState.nextNotificationId
        user := demoEmail.sender.id
        message := autoReplyMsg bob
        created_at := demoState.now
        notification_type := "email"
        related_email := some demoState.nextEmailId } ∧
    arPushOf demoEmail demoState =
      { group := channelName demoEmail.sender.id
        kind := "email_notification"
        emailId := demoState.nextEmailId
        notificationId := demoState.nextNotificationId }) :=
  ⟨rfl, by decide, rfl, auto_reply_creates_exactly_one_reply demoDb demoEmail
    bob demoSettings demoState rfl (by decide) rfl⟩

/-- C4: an email-creation request whose payload passes the synchronous
recipient validation returns the created email no matter which collaborator
calls fail inside the dispatch pipeline — the oracle is universally
quantified over notification persistence, push delivery and auto-reply
failures — and the created email is persisted in the resulting store. -/
theorem send_request_always_returns_email (o : Oracle) (db : SettingsDb)
    (req : SendRequest) (s : MailState) (h : req.recipients ≠ []) :
    ∃ s2, createEmailAndSend o db req s = Except.ok (mkEmail req s, s2) ∧
      mkEmail req s ∈ s2.emails := by
  have hne : req.recipients.isEmpty = false := by
    cases hr : req.recipients with
    | nil => exact absurd hr h
    | cons a l => rfl
  unfold createEmailAndSend
  rw [hne]
  simp only [Bool.false_eq_true, if_false]
  refine ⟨_, rfl, ?_⟩
  obtain ⟨em, nt, ps, he, _, _, _, _⟩ :=
    notify_spec o db (mkEmail req s)
      { s with emails := s.emails ++ [mkEmail req s]
               nextEmailId := s.nextEmailId + 1 }
      (Nat.lt_succ_self _)
  rw [he]
  simp

/-- Witness for the fire-and-forget theorem: demoReq is sent under the
all-failures oracle and the request still returns the created email. -/
theorem send_request_always_returns_email_witness :
    demoReq.recipients ≠ [] ∧
    ∃ s2, createEmailAndSend allFail demoDb demoReq demoState =
        Except.ok (mkEmail demoReq demoState, s2) ∧
      mkEmail demoReq demoState ∈ s2.emails :=
  ⟨by decide, send_request_always_returns_email allFail demoDb demoReq
    demoState (by decide)⟩

/-- C5: per-member isolation of dispatch failures.  For every oracle — in
particular one injecting notification, push or auto-reply errors at other
members — every audience member whose own notification creation does not
fail still gets exactly one notification linked to the email, and when its
push does not fail either, a push event to its channel is still emitted. -/
theorem member_failure_is_isolated (o : Oracle) (db : SettingsDb)
    (email : Email) (s : MailState) (r : PyUser)
    (h : email.id < s.nextEmailId) (hmem : r ∈ audience email) :
    ∃ nt ps,
      (notify_recipients o db email s).notifications =
        s.notifications ++ nt ∧
      (notify_recipients o db email s).pushes = s.pushes ++ ps ∧
      (o.notifFail r.id = false →
        (nt.filter (relatedTo email.id)).countP
          (fun n => n.user == r.id) = 1) ∧
      (o.notifFail r.id = false → o.pushFail r.id = false →
        ∃ p ∈ ps, p.emailId = email.id ∧ p.group = channelName r.id) := by
  obtain ⟨em, nt, ps, _, hn, hp, hf, hg⟩ := notify_spec o db email s h
  refine ⟨nt, ps, hn, hp, ?_, ?_⟩
  · intro hno
    have hrfil : r ∈ (audience email).filter (okNotif o) :=
      List.mem_filter.mpr ⟨hmem, by simp [okNotif, hno]⟩
    have hc1 : (nt.filter (relatedTo email.id)).countP
          (fun n => n.user == r.id) =
        ((nt.filter (relatedTo email.id)).map notifProj).countP
          (fun t => t.1 == r.id) := by
      rw [List.countP_map]
      rfl
    have hc2 : (((audience email).filter (okNotif o)).map
          (canonProj email)).countP (fun t => t.1 == r.id) =
        ((((audience email).filter (okNotif o)).map
          (fun v => v.id))).countP (fun x => x == r.id) := by
      rw [List.countP_map, List.countP_map]
      rfl
    rw [hc1, hf, hc2]
    have hnodup : (((audience email).filter (okNotif o)).map
        (fun v => v.id)).Nodup :=
      List.Nodup.sublist
        (List.Sublist.map _ (List.filter_sublist (audience email)))
        (audience_ids_nodup email)
    exact countP_eq_one_of_nodup_mem hnodup
      (List.mem_map_of_mem (fun v => v.id) hrfil)
  · intro hno hpu
    have hrfil : r ∈ (audience email).filter (okPush o) :=
      List.mem_filter.mpr ⟨hmem, by simp [okPush, hno, hpu]⟩
    have hch : channelName r.id ∈
        (ps.filter (forEmail email.id)).map (fun p => p.group) := by
      rw [hg]
      exact List.mem_map_of_mem (fun v => channelName v.id) hrfil
    obtain ⟨p, hpmem, hpg⟩ := List.mem_map.mp hch
    refine ⟨p, List.mem_of_mem_filter hpmem, ?_, hpg⟩
    have := List.of_mem_filter hpmem
    simpa [forEmail] using this

/-- Witness for the isolation theorem: Carol's notification creation fails
under failCarol, yet Bob — also in demoEmail's audience — still gets his
notification and push. -/
theorem member_failure_is_isolated_witness :
    demoEmail.id < demoState.nextEmailId ∧
    bob ∈ audience demoEmail ∧
    ∃ nt ps,
      (notify_recipients failCarol demoDb demoEmail
        demoState).notifications = demoState.notifications ++ nt ∧
      (notify_recipients failCarol demoDb demoEmail demoState).pushes =
        demoState.pushes ++ ps ∧
      (failCarol.notifFail bob.id = false →
        (nt.filter (relatedTo demoEmail.id)).countP
          (fun n => n.user == bob.id) = 1) ∧
      (failCarol.notifFail bob.id = false →
        failCarol.pushFail bob.id = false →
        ∃ p ∈ ps, p.emailId = demoEmail.id ∧
          p.group = channelName bob.id) :=
  ⟨by decide, by decide, member_failure_is_isolated failCarol demoDb
    demoEmail demoState bob (by decide) (by decide)⟩

/-- C6: a successful connect for a user with registered prior connections
first evicts every one of them from the user's channel and resets the
registry entry, then registers and subscribes the new connection: afterwards
the registry maps the user to exactly the new connection, the user's channel
holds exactly the new connection — so a publish addressed to the user
reaches only it — and other users' registry entries are untouched.  The
coherence hypothesis states that every subscriber of the user's channel was
registered, which holds in every state reachable from the empty registry. -/
theorem connect_evicts_then_registers (st : RegState) (u : Nat) (ch : String)
    (hcoh : ∀ c ∈ st.groups (channelName u), c ∈ (st.active u).getD [])
    (_hconn : (st.active u).getD [] ≠ []) :
    (connect u ch st).active u = some [ch] ∧
    (connect u ch st).groups (channelName u) = [ch] ∧
    publishTargets u (connect u ch st) = [ch] ∧
    (∀ v, v ≠ u → (connect u ch st).active v = st.active v) := by
  have hg1 : (((st.active u).getD []).foldl
      (fun gs c => groupDiscard gs (channelName u) c) st.groups)
      (channelName u) = [] := by
    rw [foldl_discard_apply]
    exact foldl_filter_nil _ _ hcoh
  refine ⟨?_, ?_, ?_, ?_⟩
  · simp [connect]
  · simp [connect, groupAdd, hg1]
  · simp [publishTargets, connect, groupAdd, hg1]
  · intro v hv
    simp [connect, hv]

/-- Witness for the stale-eviction theorem: user 7 has two registered
connections in demoReg and connects a fresh channel. -/
theorem connect_evicts_then_registers_witness :
    (∀ c ∈ demoReg.groups (channelName 7), c ∈ (demoReg.active 7).getD []) ∧
    (demoReg.active 7).getD [] ≠ [] ∧
    ((connect 7 "cNew" demoReg).active 7 = some ["cNew"] ∧
     (connect 7 "cNew" demoReg).groups (channelName 7) = ["cNew"] ∧
     publishTargets 7 (connect 7 "cNew" demoReg) = ["cNew"] ∧
     (∀ v, v ≠ 7 → (connect 7 "cNew" demoReg).active v = demoReg.active v))
    :=
  ⟨by decide, by decide,
    connect_evicts_then_registers demoReg 7 "cNew" (by decide) (by decide)⟩

/-- C7: disconnecting a channel that is not currently registered for the
user raises nothing past the operation (disconnect is total) and leaves
every registry entry — the user's own and every other user's — unchanged;
and removing a user's last registered connection deletes the registry entry
entirely instead of keeping an empty placeholder, again leaving other
users' entries unchanged. -/
theorem disconnect_is_idempotent_noop (st : RegState) (u : Nat)
    (ch : String) :
    (ch ∉ (st.active u).getD [] →
      ∀ v, (disconnect u ch st).active v = st.active v) ∧
    (st.active u = some [ch] →
      (disconnect u ch st).active u = none ∧
      ∀ v, v ≠ u → (disconnect u ch st).active v = st.active v) := by
  constructor
  · intro hnr v
    unfold disconnect
    cases ha : st.active u with
    | none => rfl
    | some l =>
      have hcl : ch ∉ l := by
        rw [ha] at hnr
        simpa using hnr
      simp [hcl]
  · intro ha
    unfold disconnect
    rw [ha]
    refine ⟨?_, ?_⟩
    · simp
    · intro v hv
      simp [hv]

/-- Witness for the disconnect theorem on demoReg2: a never-registered
channel is disconnected harmlessly, and removing user 7's only connection
deletes the entry while user 9's entry survives. -/
theorem disconnect_is_idempotent_noop_witness :
    ("ghost" ∉ (demoReg2.active 7).getD [] ∧
      ∀ v, (disconnect 7 "ghost" demoReg2).active v = demoReg2.active v) ∧
    (demoReg2.active 7 = some ["chA"] ∧
      ((disconnect 7 "chA" demoReg2).active 7 = none ∧
        ∀ v, v ≠ 7 → (disconnect 7 "chA" demoReg2).active v =
          demoReg2.active v)) :=
  ⟨⟨by decide,
      (disconnect_is_idempotent_noop demoReg2 7 "ghost").1 (by decide)⟩,
   ⟨by decide,
      (disconnect_is_idempotent_noop demoReg2 7 "chA").2 (by decide)⟩⟩

/-- C8: dispatch processes the audience in a stable order that is a
function of the email alone — the deduplicated first-occurrence order of
recipients, cc, bcc, mirroring the deterministic Python set iteration — so
two dispatch runs of the same email, even from different store states and
settings stores, create their notifications and emit their pushes for the
same members in the same order. -/
theorem dispatch_order_is_deterministic (dbA dbB : SettingsDb)
    (email : Email) (sA sB : MailState) (hA : email.id < sA.nextEmailId)
    (hB : email.id < sB.nextEmailId) :
    ∃ ntA psA ntB psB,
      (notify_recipients noFail dbA email sA).notifications =
        sA.notifications ++ ntA ∧
      (notify_recipients noFail dbA email sA).pushes = sA.pushes ++ psA ∧
      (notify_recipients noFail dbB email sB).notifications =
        sB.notifications ++ ntB ∧
      (notify_recipients noFail dbB email sB).pushes = sB.pushes ++ psB ∧
      (ntA.filter (relatedTo email.id)).map (fun n => n.user) =
        (audience email).map (fun r => r.id) ∧
      (ntB.filter (relatedTo email.id)).map (fun n => n.user) =
        (audience email).map (fun r => r.id) ∧
      (psA.filter (forEmail email.id)).map (fun p => p.group) =
        (audience email).map (fun r => channelName r.id) ∧
      (psB.filter (forEmail email.id)).map (fun p => p.group) =
        (audience email).map (fun r => channelName r.id) := by
  obtain ⟨ntA, psA, hnA, hpA, _, hoA, hgA⟩ :=
    notify_noFail_order dbA email sA hA
  obtain ⟨ntB, psB, hnB, hpB, _, hoB, hgB⟩ :=
    notify_noFail_order dbB email sB hB
  exact ⟨ntA, psA, ntB, psB, hnA, hpA, hnB, hpB, hoA, hoB, hgA, hgB⟩

/-- Witness for the stable-order theorem: demoEmail dispatched from two
different store states. -/
theorem dispatch_order_is_deterministic_witness :
    demoEmail.id < demoState.nextEmailId ∧
    demoEmail.id < demoReplyState.nextEmailId ∧
    ∃ ntA psA ntB psB,
      (notify_recipients noFail demoDb demoEmail demoState).notifications =
        demoState.notifications ++ ntA ∧
      (notify_recipients noFail demoDb demoEmail demoState).pushes =
        demoState.pushes ++ psA ∧
      (notify_recipients noFail demoDb demoEmail
        demoReplyState).notifications =
        demoReplyState.notifications ++ ntB ∧
      (notify_recipients noFail demoDb demoEmail demoReplyState).pushes =
        demoReplyState.pushes ++ psB ∧
      (ntA.filter (relatedTo demoEmail.id)).map (fun n => n.user) =
        (audience demoEmail).map (fun r => r.id) ∧
      (ntB.filter (relatedTo demoEmail.id)).map (fun n => n.user) =
        (audience demoEmail).map (fun r => r.id) ∧
      (psA.filter (forEmail demoEmail.id)).map (fun p => p.group) =
        (audience demoEmail).map (fun r => channelName r.id) ∧
      (psB.filter (forEmail demoEmail.id)).map (fun p => p.group) =
        (audience demoEmail).map (fun r => channelName r.id) :=
  ⟨by decide, by decide, dispatch_order_is_deterministic demoDb demoDb
    demoEmail demoState demoReplyState (by decide) (by decide)⟩

/-- C9: the auto-reply decision and effects do not depend on the
auto_reply_start_date / auto_reply_end_date fields: running
handle_auto_reply against settings stores whose entry for the recipient
differs only in those two fields — null or any timestamps, including
windows excluding the present — produces identical states (same auto-reply
emails, notifications and pushes), for every oracle. -/
theorem auto_reply_ignores_date_window (o : Oracle) (db : SettingsDb)
    (email : Email) (r : PyUser) (s : MailState) (us : UserSettings)
    (a b a2 b2 : Option Nat) :
    handle_auto_reply o
      (fun v => if v == r.id then
        some { us with auto_reply_start_date := a,
                       auto_reply_end_date := b }
        else db v) email r s =
    handle_auto_reply o
      (fun v => if v == r.id then
        some { us with auto_reply_start_date := a2,
                       auto_reply_end_date := b2 }
        else db v) email r s := by
  unfold handle_auto_reply
  simp [arEmailOf]

/-- C10: the stored auto-reply body is the literal concatenation of the
Quill-delta prefix, the raw message text and the closing fragment, with no
escaping applied to the message; consequently a message containing a
double-quote yields a stored body that is not well-formed JSON, while an
ordinary message yields well-formed JSON. -/
theorem quill_delta_is_raw_interpolation :
    (∀ t : String, plain_text_to_quill_delta t =
      "[\x7b\"insert\": \"" ++ t ++ "\\n\"\x7d]") ∧
    jsonOk (plain_text_to_quill_delta "Away") = true ∧
    jsonOk (plain_text_to_quill_delta "\"") = false :=
  ⟨fun t => rfl, by decide, by decide⟩

end GotMail
